import Mathlib

/-!
Verification of the VMTerminal core against its specification.

The development shallowly embeds the three core subsystems of the
repository:

* the hypervisor `VMConfig` validation (`pkg/hypervisor/driver_darwin.go`,
  `VMConfig.Validate`),
* the VM lifecycle `Manager` (`internal/vm/manager.go`): state machine,
  warm/cold `Prepare` paths, `Start`/`Stop`/`Kill`,
* the snapshot engine (`internal/vm/manager.go`, `SnapshotManager`):
  create / restore / verify with compression, checksums and
  temp-file-plus-rename crash safety.

Go machine integers are modelled as `Int` (overflow is irrelevant at the
values involved), byte contents as `List Nat`, and the filesystem visible
to the snapshot engine as an explicit record.  External collaborators
(distro provider, image manager, gzip, SHA-256, the platform hypervisor)
are parameters of the embedding, constrained only where the code
constrains them.
-/

namespace Hypervisor

/-- Validation errors of `VMConfig.Validate` (`pkg/hypervisor/errors`). -/
inductive VErr where
  | invalidCPUCount
  | insufficientMemory
  | missingKernel
  | invalidNetworkMode
deriving DecidableEq, Repr

/-- `VMConfig` from `pkg/hypervisor/driver_darwin.go`.  Maps are embedded
as association lists; the fields the core never reads are kept so that
mutation claims are meaningful. -/
structure VMConfig where
  cpus : Int
  memoryMB : Int
  kernel : String
  initrd : String
  cmdline : String
  diskPath : String
  sharedDirs : List (String × String)
  sharedDirsReadOnly : List (String × Bool)
  enableNetwork : Bool
  networkMode : String
  macAddress : String
  portForwards : List (Int × Int)
deriving DecidableEq, Repr

/-- The zero-valued `VMConfig`, used to build literals the way the Go code
does (unmentioned fields are zero values). -/
def VMConfig.zero : VMConfig :=
  { cpus := 0, memoryMB := 0, kernel := "", initrd := "", cmdline := ""
  , diskPath := "", sharedDirs := [], sharedDirsReadOnly := []
  , enableNetwork := false, networkMode := "", macAddress := ""
  , portForwards := [] }

/-- `VMConfig.Validate` from `pkg/hypervisor/driver_darwin.go:392-412`.
The Go method takes a pointer receiver and assigns `c.NetworkMode = "nat"`
when networking is enabled with an empty mode; the embedding therefore
returns the (possibly updated) configuration together with the optional
error. -/
def Validate (c : VMConfig) : VMConfig × Option VErr :=
  if c.cpus < 1 then (c, some .invalidCPUCount)
  else if c.memoryMB < 128 then (c, some .insufficientMemory)
  else if c.kernel = "" then (c, some .missingKernel)
  else if c.enableNetwork then
    let c' := if c.networkMode = "" then { c with networkMode := "nat" } else c
    if c'.networkMode ≠ "nat" ∧ c'.networkMode ≠ "bridged" then
      (c', some .invalidNetworkMode)
    else (c', none)
  else (c, none)

/-- The configuration exhibiting the divergence: networking enabled with an
empty (hence not "nat"/"bridged") mode, all other checks passing. -/
def cexConfig : VMConfig :=
  { VMConfig.zero with
    cpus := 1, memoryMB := 128, kernel := "k", enableNetwork := true }

/-- The field update `Validate` performs: it happens exactly when
networking is enabled with an empty mode and the earlier checks pass. -/
def mutates (c : VMConfig) : Prop :=
  c.enableNetwork = true ∧ c.networkMode = "" ∧
    1 ≤ c.cpus ∧ 128 ≤ c.memoryMB ∧ c.kernel ≠ ""

instance (c : VMConfig) : Decidable (mutates c) := by
  unfold mutates; infer_instance

end Hypervisor

namespace VM

/-- Manager lifecycle state (`internal/vm/manager.go:15-24`). -/
inductive MState where
  | new
  | ready
  | running
  | stopping
  | stopped
  | error
deriving DecidableEq, Repr

/-- An opaque error value produced by a driver call. -/
structure DrvErr where
  code : Nat
deriving DecidableEq, Repr

/-- Errors a Manager lifecycle call can return.  `invalidState` embeds the
`fmt.Errorf("cannot …: invalid state %s", m.state)` errors; `driver` wraps
a driver failure. -/
inductive CallErr where
  | invalidState (s : MState)
  | driver (e : DrvErr)
deriving DecidableEq, Repr

/-- The Manager fields the lifecycle calls read and write
(`internal/vm/manager.go:82-92`): the state, the last error, and the
completion-signal reference (`errCh`, modelled by an identifying number).
The collaborator references (`assets`, `images`, `driver`, `stateFile`)
are immutable after construction and are modelled as call parameters. -/
structure Manager where
  state : MState
  lastErr : Option DrvErr
  errCh : Option Nat
deriving DecidableEq, Repr

/-- `Manager.Start` (`internal/vm/manager.go:303-331`).  `drv` is the
outcome of `m.driver.Start`: on success a completion-signal reference.
The `RecordBoot` persistence call and the spawned monitor touch no Manager
field (persistence failure is only logged), so they do not appear in the
state transformer. -/
def Manager.start (m : Manager) (drv : Except DrvErr Nat) :
    Manager × Option CallErr :=
  if m.state ≠ MState.ready then (m, some (.invalidState m.state))
  else
    match drv with
    | .error e => ({ m with state := .error, lastErr := some e }, some (.driver e))
    | .ok ch => ({ m with errCh := some ch, state := .running }, none)

/-- `Manager.Stop` (`internal/vm/manager.go:334-352`).  The Go code sets
`state = Stopping` before calling `driver.Stop` and overwrites it with
`Error` on driver failure; `drv` is the driver outcome. -/
def Manager.stop (m : Manager) (drv : Option DrvErr) :
    Manager × Option CallErr :=
  if m.state ≠ MState.running then (m, some (.invalidState m.state))
  else
    match drv with
    | some e => ({ m with state := .error, lastErr := some e }, some (.driver e))
    | none => ({ m with state := .stopping }, none)

/-- `Manager.Kill` (`internal/vm/manager.go:355-372`). -/
def Manager.kill (m : Manager) (drv : Option DrvErr) :
    Manager × Option CallErr :=
  if m.state ≠ MState.running ∧ m.state ≠ MState.stopping then
    (m, some (.invalidState m.state))
  else
    match drv with
    | some e => ({ m with state := .error, lastErr := some e }, some (.driver e))
    | none => (m, none)

end VM

namespace VM

/-- `distro.SetupRequirements` (consumed collaborator data). -/
structure SetupRequirements where
  needsFormatting : Bool
  fsType : String
  needsExtraction : Bool
deriving DecidableEq, Repr

/-- `AssetPaths` (`internal/vm/assets.go:28-32`). -/
structure AssetPaths where
  kernel : String
  initramfs : String
  rootfs : String
deriving DecidableEq, Repr

/-- `distro.AssetURLs` as consumed by `AssetsExist`. -/
structure AssetURLs where
  kernel : String
  initrd : String
  rootfs : String
deriving DecidableEq, Repr

/-- `DefaultDiskSizeMB` (`internal/vm/image.go:11`). -/
def DefaultDiskSizeMB : Int := 10 * 1024

/-- `ManagerConfig` (`internal/vm/manager.go:46-79`), restricted to the
fields `NewManager`/`Prepare` read. -/
structure ManagerConfig where
  cpus : Int
  memoryMB : Int
  diskSizeMB : Int
  diskName : String
  sharedDirs : List (String × String)
  enableNetwork : Bool
  macAddress : String
  sshHostPort : Int
deriving DecidableEq, Repr

/-- The defaulting `NewManager` applies (`internal/vm/manager.go:101-113`):
only the exact zero values are replaced. -/
def applyDefaults (cfg : ManagerConfig) : ManagerConfig :=
  { cfg with
    cpus := if cfg.cpus = 0 then 1 else cfg.cpus
    memoryMB := if cfg.memoryMB = 0 then 512 else cfg.memoryMB
    diskSizeMB := if cfg.diskSizeMB = 0 then DefaultDiskSizeMB else cfg.diskSizeMB
    diskName := if cfg.diskName = "" then "root" else cfg.diskName }

/-- The environment `Prepare` runs in: the outcomes of the collaborator
calls (`AssetManager`, `ImageManager`, distro provider) and of the driver
calls.  Each field is the deterministic outcome of the corresponding call
during this `Prepare` invocation. -/
structure PrepEnv where
  /-- `AssetManager.GetAssetPaths` (`internal/vm/assets.go:116-145`). -/
  getAssetPaths : Except Unit AssetPaths
  /-- `provider.AssetURLs`, as consumed by `AssetsExist`. -/
  assetURLs : Except Unit AssetURLs
  /-- `os.Stat` success on a path (used on `paths.Rootfs`). -/
  statOK : String → Bool
  /-- `provider.SetupRequirements()` (`nil` pointer modelled as `none`). -/
  setupReqs : Option SetupRequirements
  /-- `provider.BootConfig().Cmdline`. -/
  bootCmdline : String
  /-- `ImageManager.DiskExists(cfg.DiskName)`. -/
  diskExists : Bool
  /-- `ImageManager.DiskPath(cfg.DiskName)`. -/
  imagesDiskPath : String
  /-- `AssetManager.EnsureAssets` (may download). -/
  ensureAssets : Except Unit AssetPaths
  /-- `ImageManager.EnsureDisk(cfg.DiskName, cfg.DiskSizeMB)`. -/
  ensureDisk : Except Unit String
  /-- Driver-specific validation performed after `VMConfig.Validate`
  (e.g. the kernel-file stat of the kvm driver). -/
  validateExtra : Hypervisor.VMConfig → Option DrvErr
  /-- `driver.Create` outcome on a given configuration. -/
  createErr : Hypervisor.VMConfig → Option DrvErr

/-- `AssetManager.AssetsExist` (`internal/vm/assets.go:148-171`). -/
def assetsExist (env : PrepEnv) : Bool :=
  match env.getAssetPaths with
  | .error _ => false
  | .ok paths =>
    match env.assetURLs with
    | .error _ => false
    | .ok urls =>
      if urls.kernel ≠ "" ∧ paths.kernel = "" then false
      else if urls.initrd ≠ "" ∧ paths.initramfs = "" then false
      else if urls.rootfs ≠ "" ∧ paths.rootfs = "" then false
      else true

/-- `Manager.isWarmPath` (`internal/vm/manager.go:153-180`). -/
def isWarmPath (env : PrepEnv) : Bool :=
  if !assetsExist env then false
  else
    match env.setupReqs with
    | some r =>
      if !r.needsExtraction then
        match env.getAssetPaths with
        | .error _ => false
        | .ok paths =>
          if paths.rootfs = "" then false
          else if !env.statOK paths.rootfs then false
          else true
      else env.diskExists
    | none => env.diskExists

/-- The observable operations a `Prepare` run performs, in order. -/
inductive Op where
  | ensureAssets
  | ensureDisk
  | validate (c : Hypervisor.VMConfig)
  | create (c : Hypervisor.VMConfig)
deriving DecidableEq, Repr

/-- Errors of `Prepare`. -/
inductive PrepErr where
  | invalidState (s : MState)
  | ensureAssetsFailed
  | ensureDiskFailed
  | validateRejected (e : Hypervisor.VErr)
  | validateFailed (e : DrvErr)
  | createFailed (e : DrvErr)
deriving DecidableEq, Repr

/-- The `vmCfg` literal both branches build (`internal/vm/manager.go:205-222`
and `267-284`); unmentioned fields stay at their zero values (in
particular `NetworkMode` is the empty string). -/
def buildVMConfig (cfg : ManagerConfig) (paths : AssetPaths)
    (cmdline diskPath : String) : Hypervisor.VMConfig :=
  { Hypervisor.VMConfig.zero with
    cpus := cfg.cpus
    memoryMB := cfg.memoryMB
    kernel := paths.kernel
    initrd := paths.initramfs
    cmdline := cmdline
    diskPath := diskPath
    sharedDirs := cfg.sharedDirs
    enableNetwork := cfg.enableNetwork
    macAddress := cfg.macAddress
    portForwards := if 0 < cfg.sshHostPort then [(cfg.sshHostPort, 22)] else [] }

/-- `driver.Validate` on either platform first runs the pure
`VMConfig.Validate` (through the pointer, so its network-mode update is
seen by the caller) and then driver-specific checks. -/
def driverValidate (env : PrepEnv) (c : Hypervisor.VMConfig) :
    Hypervisor.VMConfig × Option PrepErr :=
  match Hypervisor.Validate c with
  | (c', some e) => (c', some (.validateRejected e))
  | (c', none) =>
    match env.validateExtra c' with
    | some e => (c', some (.validateFailed e))
    | none => (c', none)

/-- The disk-path branch condition both Prepare paths test
(`setupReqs != nil && !setupReqs.NeedsExtraction && paths.Rootfs != ""`,
`internal/vm/manager.go:195` and `:249`). -/
def useRootfsDirect (env : PrepEnv) (paths : AssetPaths) : Bool :=
  match env.setupReqs with
  | some r => !r.needsExtraction && paths.rootfs ≠ ""
  | none => false

/-- Tail of `Manager.coldPrepare` (`internal/vm/manager.go:264-300`) once
the disk path is known: build the config, Validate, then Create. -/
def coldFinish (env : PrepEnv) (cfg : ManagerConfig) (paths : AssetPaths)
    (diskPath : String) (ops : List Op) : MState × Option PrepErr × List Op :=
  let c := buildVMConfig cfg paths env.bootCmdline diskPath
  match driverValidate env c with
  | (_, some e) => (.error, some e, ops ++ [.validate c])
  | (c', none) =>
    match env.createErr c' with
    | some e => (.error, some (.createFailed e), ops ++ [.validate c, .create c'])
    | none => (.ready, none, ops ++ [.validate c, .create c'])

/-- `Manager.coldPrepare` (`internal/vm/manager.go:236-300`). -/
def coldPrepare (env : PrepEnv) (cfg : ManagerConfig) :
    MState × Option PrepErr × List Op :=
  match env.ensureAssets with
  | .error _ => (.error, some .ensureAssetsFailed, [.ensureAssets])
  | .ok paths =>
    if useRootfsDirect env paths then
      coldFinish env cfg paths paths.rootfs [.ensureAssets]
    else
      match env.ensureDisk with
      | .error _ => (.error, some .ensureDiskFailed, [.ensureAssets, .ensureDisk])
      | .ok p => coldFinish env cfg paths p [.ensureAssets, .ensureDisk]

/-- `Manager.warmPrepare` (`internal/vm/manager.go:184-233`): read the
cached asset paths directly (falling back to the cold path if that fails),
pick the disk path by setup requirements, and run only `driver.Create`. -/
def warmPrepare (env : PrepEnv) (cfg : ManagerConfig) :
    MState × Option PrepErr × List Op :=
  match env.getAssetPaths with
  | .error _ => coldPrepare env cfg
  | .ok paths =>
    let diskPath :=
      if useRootfsDirect env paths then paths.rootfs else env.imagesDiskPath
    let c := buildVMConfig cfg paths env.bootCmdline diskPath
    match env.createErr c with
    | some e => (.error, some (.createFailed e), [.create c])
    | none => (.ready, none, [.create c])

/-- `Manager.Prepare` (`internal/vm/manager.go:136-150`): state guard,
then warm or cold branch. -/
def prepare (env : PrepEnv) (cfg : ManagerConfig) (st : MState) :
    MState × Option PrepErr × List Op :=
  if st ≠ MState.new ∧ st ≠ MState.stopped then
    (st, some (.invalidState st), [])
  else if isWarmPath env then warmPrepare env cfg
  else coldPrepare env cfg

/-- The `ManagerConfig` of the C2 counterexample: a non-zero memory value
below 128 MiB. -/
def c2Cfg : ManagerConfig :=
  { cpus := 1, memoryMB := 64, diskSizeMB := 1024, diskName := "root"
  , sharedDirs := [], enableNetwork := false, macAddress := ""
  , sshHostPort := 0 }

/-- Cached asset paths of an extraction-based distro (no rootfs asset). -/
def c2Paths : AssetPaths :=
  { kernel := "/cache/vmlinuz", initramfs := "/cache/initramfs", rootfs := "" }

/-- A warm environment: assets cached, extraction-based distro, disk
image present, all driver calls succeeding. -/
def c2Env : PrepEnv :=
  { getAssetPaths := .ok c2Paths
  , assetURLs := .ok { kernel := "http://k", initrd := "http://i", rootfs := "" }
  , statOK := fun _ => true
  , setupReqs := some { needsFormatting := true, fsType := "ext4", needsExtraction := true }
  , bootCmdline := "console=hvc0"
  , diskExists := true
  , imagesDiskPath := "/data/root.img"
  , ensureAssets := .ok c2Paths
  , ensureDisk := .ok "/data/root.img"
  , validateExtra := fun _ => none
  , createErr := fun _ => none }

/-- The configuration the warm path hands to `Driver.Create` in the C2
counterexample. -/
def c2Created : Hypervisor.VMConfig :=
  buildVMConfig (applyDefaults c2Cfg) c2Paths "console=hvc0" "/data/root.img"

/-- A valid `ManagerConfig` for the cold-path witness. -/
def c2ColdCfg : ManagerConfig :=
  { c2Cfg with memoryMB := 512 }

/-- A cold environment (assets not cached) with all operations
succeeding. -/
def c2ColdEnv : PrepEnv :=
  { c2Env with
    getAssetPaths := .ok { kernel := "", initramfs := "", rootfs := "" }
  , diskExists := false }

/-- The configuration the cold path hands to `Driver.Create` in the
witness run. -/
def c2ColdCreated : Hypervisor.VMConfig :=
  buildVMConfig c2ColdCfg c2Paths "console=hvc0" "/data/root.img"

/-- The warm environment of the C8 witness (separate from C2's). -/
def c8Env : PrepEnv :=
  { c2Env with createErr := fun _ => none }

/-- The `ManagerConfig` of the C8 witness: a fully valid configuration. -/
def c8Cfg : ManagerConfig :=
  { c2Cfg with memoryMB := 1024, cpus := 2 }

end VM

namespace Snap

/-- Errors of the snapshot engine, by kind (§7 of the spec):
`diskNotFound` is the "VM disk not found" error, `duplicateName` the
DuplicateName kind, `notFound` the NotFound kind, `corruption` the
checksum-mismatch Corruption kind, `noChecksum` the distinct
"snapshot has no checksum" condition of `VerifySnapshot`, and
`ioFailure` any environment-injected file-operation failure. -/
inductive SnapErr where
  | diskNotFound
  | duplicateName
  | notFound
  | corruption
  | noChecksum
  | ioFailure
deriving DecidableEq, Repr

/-- `SnapshotEntry` (`internal/vm/manager.go:459-466`); `createdAt` is an
abstract timestamp. -/
structure SnapshotEntry where
  name : String
  vmName : String
  description : String
  createdAt : Nat
  diskSize : Nat
  checksum : String
deriving DecidableEq, Repr

/-- The external primitives the engine streams data through: the gzip
compressor/decompressor and the SHA-256 hex digest.  They are parameters
of the embedding; theorems assume of them only what the respective claim
needs (losslessness, digest disagreement on corrupted data, …). -/
structure SnapEnv where
  compress : List Nat → List Nat
  decompress : List Nat → List Nat
  hash : List Nat → String

/-- The slice of the filesystem one VM's snapshot engine touches:
the live disk (`data/<vm>/disk.raw`), the final artifacts
(`data/<vm>/snapshots/<name>.raw.gz`), the create-temporaries
(`<name>.raw.gz.tmp`), the restore-temporary (`disk.raw.restoring`),
the parsed metadata document (`snapshots.json`; a missing file reads as
an empty list, `internal/vm/manager.go:504-519`) and the metadata
temporary (`snapshots.json.tmp`). -/
structure SnapFS where
  disk : Option (List Nat)
  artifacts : String → Option (List Nat)
  tmpArtifacts : String → Option (List Nat)
  restoringTmp : Option (List Nat)
  snapshots : List SnapshotEntry
  metaTmp : Bool

/-- Pointwise update of a path-indexed map. -/
def upd (f : String → Option (List Nat)) (k : String) (v : Option (List Nat)) :
    String → Option (List Nat) :=
  fun k' => if k' = k then v else f k'

/-- `SnapshotManager.CleanupPartial` (`internal/vm/manager.go:835-856`):
removes every `*.tmp` artifact, every `*.restoring` file and the metadata
temporary; touches nothing else. -/
def cleanupPartial (fs : SnapFS) : SnapFS :=
  { fs with tmpArtifacts := fun _ => none, restoringTmp := none, metaTmp := false }

/-- Injected failures for the fallible file operations of
`CreateSnapshot`, in program order: creating the temp file, the
compressing copy, flushing/closing the gzip writer, closing the temp
file, the rename into place, the checksum read, the metadata temp write
and the metadata rename. -/
structure CreateFaults where
  failCreateTmp : Bool
  failCompressCopy : Bool
  failGzClose : Bool
  failFileClose : Bool
  failRename : Bool
  failChecksum : Bool
  failMetaWrite : Bool
  failMetaRename : Bool
deriving DecidableEq, Repr

/-- The all-succeed fault assignment. -/
def noFaults : CreateFaults :=
  { failCreateTmp := false, failCompressCopy := false, failGzClose := false
  , failFileClose := false, failRename := false, failChecksum := false
  , failMetaWrite := false, failMetaRename := false }

/-- `SnapshotManager.CreateSnapshot` (`internal/vm/manager.go:553-656`)
for one VM, step by step: CleanupPartial; stat the disk; load metadata;
duplicate-name check; create the temp artifact; stream the disk through
gzip into it; rename it into place; checksum the final file; append the
entry and save the metadata with its own temp-file-plus-rename
(`Save`, `internal/vm/manager.go:523-549`).  Each fallible operation
consults `flt`; every failure path performs exactly the removals the Go
code performs. -/
def createSnapshot (env : SnapEnv) (flt : CreateFaults) (now : Nat)
    (fs0 : SnapFS) (vmName snapName descr : String) :
    SnapFS × Option SnapErr :=
  let fs := cleanupPartial fs0
  match fs.disk with
  | none => (fs, some .diskNotFound)
  | some d =>
    if fs.snapshots.any (fun s => s.name = snapName) then
      (fs, some .duplicateName)
    else if flt.failCreateTmp then (fs, some .ioFailure)
    else
      let fs1 := { fs with tmpArtifacts := upd fs.tmpArtifacts snapName (some []) }
      if flt.failCompressCopy ∨ flt.failGzClose then
        ({ fs1 with tmpArtifacts := upd fs1.tmpArtifacts snapName none },
          some .ioFailure)
      else
        let fs2 := { fs1 with
          tmpArtifacts := upd fs1.tmpArtifacts snapName (some (env.compress d)) }
        if flt.failFileClose ∨ flt.failRename then
          ({ fs2 with tmpArtifacts := upd fs2.tmpArtifacts snapName none },
            some .ioFailure)
        else
          let fs3 := { fs2 with
            tmpArtifacts := upd fs2.tmpArtifacts snapName none,
            artifacts := upd fs2.artifacts snapName (some (env.compress d)) }
          if flt.failChecksum then
            ({ fs3 with artifacts := upd fs3.artifacts snapName none },
              some .ioFailure)
          else
            let entry : SnapshotEntry :=
              { name := snapName, vmName := vmName, description := descr
              , createdAt := now, diskSize := d.length
              , checksum := env.hash (env.compress d) }
            if flt.failMetaWrite then
              ({ fs3 with artifacts := upd fs3.artifacts snapName none },
                some .ioFailure)
            else if flt.failMetaRename then
              ({ fs3 with
                  artifacts := upd fs3.artifacts snapName none,
                  metaTmp := false },
                some .ioFailure)
            else
              ({ fs3 with
                  metaTmp := false,
                  snapshots := fs.snapshots ++ [entry] },
                none)

/-- `SnapshotManager.RestoreSnapshot` (`internal/vm/manager.go:686-748`):
CleanupPartial; look the entry up (NotFound); if the recorded checksum is
non-empty, recompute the artifact's digest and refuse on mismatch
(Corruption); then decompress into `disk.raw.restoring` and rename it
over the live disk.  A missing artifact file surfaces as an I/O
failure (both the checksum read and the open fail on it). -/
def restoreSnapshot (env : SnapEnv) (fs0 : SnapFS) (snapName : String) :
    SnapFS × Option SnapErr :=
  let fs := cleanupPartial fs0
  match fs.snapshots.find? (fun s => s.name = snapName) with
  | none => (fs, some .notFound)
  | some snap =>
    match fs.artifacts snapName with
    | none => (fs, some .ioFailure)
    | some art =>
      if snap.checksum ≠ "" ∧ env.hash art ≠ snap.checksum then
        (fs, some .corruption)
      else
        let restored := env.decompress art
        let fs1 := { fs with restoringTmp := some restored }
        ({ fs1 with restoringTmp := none, disk := some restored }, none)

/-- `SnapshotManager.VerifySnapshot` (`internal/vm/manager.go:795-816`):
read-only; NotFound for an unknown name, the distinct no-checksum error
for a pre-checksum entry, Corruption on digest mismatch. -/
def verifySnapshot (env : SnapEnv) (fs : SnapFS) (snapName : String) :
    Option SnapErr :=
  match fs.snapshots.find? (fun s => s.name = snapName) with
  | none => some .notFound
  | some snap =>
    if snap.checksum = "" then some .noChecksum
    else
      match fs.artifacts snapName with
      | none => some .ioFailure
      | some art =>
        if env.hash art ≠ snap.checksum then some .corruption
        else none

/-- Concrete gzip/SHA-256 stand-ins for the C4 witness: the identity codec
and an injective rendering of the bytes as a digest string. -/
def c4Env : SnapEnv :=
  { compress := id, decompress := id
  , hash := fun l => String.mk (l.map (fun n => Char.ofNat (65 + n % 26))) }

/-- An empty snapshot store whose VM disk holds three bytes. -/
def c4FS : SnapFS :=
  { disk := some [1, 2, 3], artifacts := fun _ => none
  , tmpArtifacts := fun _ => none, restoringTmp := none
  , snapshots := [], metaTmp := false }

/-- Concrete codec/digest for the C5 witness (digest prefixed so it is
never empty, and injective on byte lists). -/
def c5Env : SnapEnv :=
  { compress := id, decompress := id
  , hash := fun l => String.mk ('h' :: l.map (fun n => Char.ofNat (65 + n % 26))) }

/-- An empty snapshot store with a two-byte disk for the C5 witness. -/
def c5FS : SnapFS :=
  { disk := some [0, 1], artifacts := fun _ => none
  , tmpArtifacts := fun _ => none, restoringTmp := none
  , snapshots := [], metaTmp := false }

/-- A store already holding a snapshot named "s1" for the C6 witness. -/
def c6FS : SnapFS :=
  { disk := some [7]
  , artifacts := fun n => if n = "s1" then some [9] else none
  , tmpArtifacts := fun _ => none, restoringTmp := none
  , snapshots := [{ name := "s1", vmName := "vm1", description := "old"
                  , createdAt := 1, diskSize := 1, checksum := "c" }]
  , metaTmp := false }

/-- Faults making the final rename fail, for the C7 witness. -/
def c7Faults : CreateFaults :=
  { noFaults with failRename := true }

/-- A store holding a checksum-less snapshot over a corrupt-looking
artifact, with a digest function that never matches anything. -/
def c10FS : SnapFS :=
  { disk := some [7]
  , artifacts := fun n => if n = "s1" then some [5] else none
  , tmpArtifacts := fun _ => none, restoringTmp := none
  , snapshots := [{ name := "s1", vmName := "vm1", description := ""
                  , createdAt := 1, diskSize := 1, checksum := "" }]
  , metaTmp := false }

/-- A digest function that disagrees with every recorded checksum. -/
def c10Env : SnapEnv :=
  { compress := id, decompress := id, hash := fun _ => "never-matches" }

end Snap

namespace Hypervisor

/-- C1 (counterexample).  On a configuration with networking enabled and an
empty network mode — a mode outside {"nat","bridged"} — `Validate` returns
no error (the claim demands an error) and mutates the configuration
(the claim demands no field be mutated). -/
theorem c1_validate_claim_fails_on_empty_network_mode :
    cexConfig.enableNetwork = true ∧
    cexConfig.networkMode ≠ "nat" ∧ cexConfig.networkMode ≠ "bridged" ∧
    (Validate cexConfig).2 = none ∧
    (Validate cexConfig).1 ≠ cexConfig := by
  refine ⟨rfl, by decide, by decide, rfl, fun h => ?_⟩
  have h2 : (Validate cexConfig).1.networkMode = "nat" := rfl
  rw [h] at h2
  exact absurd h2 (by decide)

/-- C1 (amended).  `Validate` returns no error exactly when CPU ≥ 1,
memory ≥ 128, the kernel path is non-empty, and — if networking is
enabled — the network mode is empty, "nat" or "bridged"; and the
returned configuration equals the input except that an empty network
mode is set to "nat" when networking is enabled and the CPU/memory/kernel
checks pass. -/
theorem c1_validate_characterization (c : VMConfig) :
    ((Validate c).2 = none ↔
      (1 ≤ c.cpus ∧ 128 ≤ c.memoryMB ∧ c.kernel ≠ "" ∧
        (c.enableNetwork = true →
          c.networkMode = "" ∨ c.networkMode = "nat" ∨ c.networkMode = "bridged"))) ∧
    (Validate c).1 =
      (if mutates c then { c with networkMode := "nat" } else c) := by
  by_cases h1 : c.cpus < 1
  · refine ⟨?_, ?_⟩
    · simp only [Validate, if_pos h1]
      constructor
      · intro h; cases h
      · rintro ⟨hc, -⟩; omega
    · simp only [Validate, if_pos h1]
      rw [if_neg]
      rintro ⟨-, -, hc, -⟩; omega
  · by_cases h2 : c.memoryMB < 128
    · refine ⟨?_, ?_⟩
      · simp only [Validate, if_neg h1, if_pos h2]
        constructor
        · intro h; cases h
        · rintro ⟨-, hm, -⟩; omega
      · simp only [Validate, if_neg h1, if_pos h2]
        rw [if_neg]
        rintro ⟨-, -, -, hm, -⟩; omega
    · by_cases h3 : c.kernel = ""
      · refine ⟨?_, ?_⟩
        · simp only [Validate, if_neg h1, if_neg h2, if_pos h3]
          constructor
          · intro h; cases h
          · rintro ⟨-, -, hk, -⟩; exact (hk h3).elim
        · simp only [Validate, if_neg h1, if_neg h2, if_pos h3]
          rw [if_neg]
          rintro ⟨-, -, -, -, hk⟩; exact hk h3
      · by_cases h4 : c.enableNetwork
        · by_cases h5 : c.networkMode = ""
          · refine ⟨?_, ?_⟩
            · simp only [Validate, if_neg h1, if_neg h2, if_neg h3, if_pos h4,
                if_pos h5]
              simp only [ne_eq, not_true_eq_false, false_and, ite_false,
                if_neg (show ¬("nat" ≠ "nat" ∧ "nat" ≠ "bridged") by simp)]
              constructor
              · intro _
                exact ⟨by omega, by omega, h3, fun _ => Or.inl h5⟩
              · intro _; trivial
            · simp only [Validate, if_neg h1, if_neg h2, if_neg h3, if_pos h4,
                if_pos h5]
              rw [if_neg (show ¬("nat" ≠ "nat" ∧ "nat" ≠ "bridged") by simp),
                if_pos ⟨h4, h5, by omega, by omega, h3⟩]
          · by_cases h6 : c.networkMode = "nat"
            · refine ⟨?_, ?_⟩
              · simp only [Validate, if_neg h1, if_neg h2, if_neg h3,
                  if_pos h4, if_neg h5,
                  if_neg (show ¬(c.networkMode ≠ "nat" ∧ c.networkMode ≠ "bridged") by
                    simp [h6])]
                constructor
                · intro _
                  exact ⟨by omega, by omega, h3, fun _ => Or.inr (Or.inl h6)⟩
                · intro _; trivial
              · simp only [Validate, if_neg h1, if_neg h2, if_neg h3,
                  if_pos h4, if_neg h5,
                  if_neg (show ¬(c.networkMode ≠ "nat" ∧ c.networkMode ≠ "bridged") by
                    simp [h6])]
                rw [if_neg]
                rintro ⟨-, hm, -⟩; exact h5 hm
            · by_cases h7 : c.networkMode = "bridged"
              · refine ⟨?_, ?_⟩
                · simp only [Validate, if_neg h1, if_neg h2, if_neg h3,
                    if_pos h4, if_neg h5,
                    if_neg (show ¬(c.networkMode ≠ "nat" ∧ c.networkMode ≠ "bridged") by
                      simp [h7])]
                  constructor
                  · intro _
                    exact ⟨by omega, by omega, h3, fun _ => Or.inr (Or.inr h7)⟩
                  · intro _; trivial
                · simp only [Validate, if_neg h1, if_neg h2, if_neg h3,
                    if_pos h4, if_neg h5,
                    if_neg (show ¬(c.networkMode ≠ "nat" ∧ c.networkMode ≠ "bridged") by
                      simp [h7])]
                  rw [if_neg]
                  rintro ⟨-, hm, -⟩; exact h5 hm
              · refine ⟨?_, ?_⟩
                · simp only [Validate, if_neg h1, if_neg h2, if_neg h3,
                    if_pos h4, if_neg h5, if_pos (And.intro h6 h7)]
                  constructor
                  · intro h; cases h
                  · rintro ⟨-, -, -, hn⟩
                    rcases hn h4 with h | h | h
                    · exact (h5 h).elim
                    · exact (h6 h).elim
                    · exact (h7 h).elim
                · simp only [Validate, if_neg h1, if_neg h2, if_neg h3,
                    if_pos h4, if_neg h5, if_pos (And.intro h6 h7)]
                  rw [if_neg]
                  rintro ⟨-, hm, -⟩; exact h5 hm
        · refine ⟨?_, ?_⟩
          · simp only [Validate, if_neg h1, if_neg h2, if_neg h3, if_neg h4]
            constructor
            · intro _
              refine ⟨by omega, by omega, h3, fun he => ?_⟩
              exact absurd he (by simpa using h4)
            · intro _; trivial
          · simp only [Validate, if_neg h1, if_neg h2, if_neg h3, if_neg h4]
            rw [if_neg]
            rintro ⟨he, -⟩
            exact h4 (by simpa using he)

end Hypervisor

namespace VM

/-- C3.  `Start` from any state other than Ready, `Stop` from any state
other than Running, and `Kill` from any state that is neither Running nor
Stopping, each return the `invalid state` error and return the Manager
completely unchanged: state field, last error and completion-signal
reference. -/
theorem c3_disallowed_state_calls_fail_without_side_effects
    (m : Manager) (ds : Except DrvErr Nat) (d1 d2 : Option DrvErr) :
    (m.state ≠ .ready →
      Manager.start m ds = (m, some (.invalidState m.state))) ∧
    (m.state ≠ .running →
      Manager.stop m d1 = (m, some (.invalidState m.state))) ∧
    (m.state ≠ .running ∧ m.state ≠ .stopping →
      Manager.kill m d2 = (m, some (.invalidState m.state))) := by
  refine ⟨fun h => ?_, fun h => ?_, fun h => ?_⟩
  · simp [Manager.start, h]
  · simp [Manager.stop, h]
  · simp [Manager.kill, h.1, h.2]

/-- C3 witness: a Stopped manager refuses all three calls and is returned
unchanged. -/
theorem c3_witness :
    Manager.start ⟨.stopped, none, none⟩ (.ok 7) =
      (⟨.stopped, none, none⟩, some (.invalidState .stopped)) ∧
    Manager.stop ⟨.stopped, none, none⟩ none =
      (⟨.stopped, none, none⟩, some (.invalidState .stopped)) ∧
    Manager.kill ⟨.stopped, none, none⟩ (some ⟨3⟩) =
      (⟨.stopped, none, none⟩, some (.invalidState .stopped)) := by
  obtain ⟨h1, h2, h3⟩ :=
    c3_disallowed_state_calls_fail_without_side_effects
      ⟨.stopped, none, none⟩ (.ok 7) none (some ⟨3⟩)
  exact ⟨h1 (by decide), h2 (by decide), h3 ⟨by decide, by decide⟩⟩

end VM

namespace VM

/-- A configuration `Validate` accepts has CPU ≥ 1, memory ≥ 128 and a
non-empty kernel path. -/
theorem validate_none_bounds (c : Hypervisor.VMConfig)
    (h : (Hypervisor.Validate c).2 = none) :
    1 ≤ c.cpus ∧ 128 ≤ c.memoryMB ∧ c.kernel ≠ "" := by
  unfold Hypervisor.Validate at h
  by_cases h1 : c.cpus < 1
  · rw [if_pos h1] at h; cases h
  · by_cases h2 : c.memoryMB < 128
    · rw [if_neg h1, if_pos h2] at h; cases h
    · by_cases h3 : c.kernel = ""
      · rw [if_neg h1, if_neg h2, if_pos h3] at h; cases h
      · exact ⟨by omega, by omega, h3⟩

/-- `Validate` only ever touches the network-mode field: CPU count,
memory and kernel path pass through unchanged. -/
theorem validate_fst_fields (c : Hypervisor.VMConfig) :
    (Hypervisor.Validate c).1.cpus = c.cpus ∧
    (Hypervisor.Validate c).1.memoryMB = c.memoryMB ∧
    (Hypervisor.Validate c).1.kernel = c.kernel := by
  unfold Hypervisor.Validate
  split_ifs <;>
    first
    | exact ⟨rfl, rfl, rfl⟩
    | (dsimp only; split <;> exact ⟨rfl, rfl, rfl⟩)

/-- In `coldFinish`, whatever configuration reaches `driver.Create` is the
configuration `Validate` accepted (after its possible network-mode
update). -/
theorem coldFinish_create_validated (env : PrepEnv) (cfg : ManagerConfig)
    (paths : AssetPaths) (dp : String) (ops : List Op)
    (hops : ∀ d, Op.create d ∉ ops) (c : Hypervisor.VMConfig)
    (h : Op.create c ∈ (coldFinish env cfg paths dp ops).2.2) :
    ∃ c0, (Hypervisor.Validate c0).2 = none ∧ c = (Hypervisor.Validate c0).1 := by
  rcases hv : Hypervisor.Validate (buildVMConfig cfg paths env.bootCmdline dp)
    with ⟨c', oe⟩
  cases oe with
  | some e =>
    exfalso
    simp only [coldFinish, driverValidate, hv, List.mem_append,
      List.mem_singleton] at h
    rcases h with h | h
    · exact hops c h
    · cases h
  | none =>
    refine ⟨buildVMConfig cfg paths env.bootCmdline dp, by rw [hv], ?_⟩
    rw [hv]
    rcases he : env.validateExtra c' with _ | e
    · rcases hcr : env.createErr c' with _ | e2 <;>
      · simp only [coldFinish, driverValidate, hv, he, hcr,
          List.mem_append, List.mem_cons, List.mem_singleton,
          List.not_mem_nil, or_false, Op.create.injEq] at h
        rcases h with h | h | h
        · exact absurd h (hops c)
        · exact absurd h (by simp)
        · exact h
    · simp only [coldFinish, driverValidate, hv, he, List.mem_append,
        List.mem_singleton] at h
      rcases h with h | h
      · exact absurd h (hops c)
      · cases h

end VM

namespace VM

/-- C2 (counterexample).  A `ManagerConfig` with a non-zero `MemoryMB` of
64 keeps that value through `NewManager`'s defaulting, and a warm-path
`Prepare` passes it straight to `Driver.Create`: the trace is exactly one
`Create` call, whose configuration has memory below 128 and would have
been rejected by `Validate`. -/
theorem c2_warm_path_create_sees_low_memory :
    (prepare c2Env (applyDefaults c2Cfg) .new).2.2 = [Op.create c2Created] ∧
    c2Created.memoryMB < 128 ∧
    (Hypervisor.Validate c2Created).2 = some .insufficientMemory := by
  refine ⟨?_, by decide, by decide⟩
  decide

/-- C2 (amended).  On the cold path the invariant does hold: every
configuration passed to `Driver.Create` by `coldPrepare` was accepted by
`Validate` first, and therefore satisfies CPU ≥ 1, memory ≥ 128 and a
non-empty kernel path. -/
theorem c2_cold_path_create_sees_validated_config (env : PrepEnv)
    (cfg : ManagerConfig) (c : Hypervisor.VMConfig)
    (h : Op.create c ∈ (coldPrepare env cfg).2.2) :
    1 ≤ c.cpus ∧ 128 ≤ c.memoryMB ∧ c.kernel ≠ "" := by
  have key : ∃ c0, (Hypervisor.Validate c0).2 = none ∧
      c = (Hypervisor.Validate c0).1 := by
    rcases he : env.ensureAssets with _ | paths
    · simp [coldPrepare, he] at h
    · by_cases hu : useRootfsDirect env paths = true
      · simp only [coldPrepare, he, hu, if_true] at h
        exact coldFinish_create_validated env cfg paths paths.rootfs _
          (by intro d hd; simp at hd) c h
      · rw [Bool.not_eq_true] at hu
        rcases hd : env.ensureDisk with _ | p
        · simp [coldPrepare, he, hu, hd] at h
        · simp only [coldPrepare, he, hu, Bool.false_eq_true, if_false, hd] at h
          exact coldFinish_create_validated env cfg paths p _
            (by intro d hd2; simp at hd2) c h
  obtain ⟨c0, hnone, hc⟩ := key
  obtain ⟨b1, b2, b3⟩ := validate_none_bounds c0 hnone
  obtain ⟨f1, f2, f3⟩ := validate_fst_fields c0
  subst hc
  exact ⟨by omega, by omega, by rw [f3]; exact b3⟩

/-- C2 witness for the amended theorem: a concrete cold run whose Create
configuration indeed satisfies the bounds. -/
theorem c2_cold_path_witness :
    1 ≤ c2ColdCreated.cpus ∧ 128 ≤ c2ColdCreated.memoryMB ∧
      c2ColdCreated.kernel ≠ "" :=
  c2_cold_path_create_sees_validated_config c2ColdEnv c2ColdCfg
    c2ColdCreated (by decide)

/-- C8.  Under the warm-path condition — assets cached, and either an
extraction-free distro whose converted image exists, or an
extraction-based distro whose disk image exists — `Prepare` from New or
Stopped performs exactly one operation, `Driver.Create` (no download, no
disk creation, no `Driver.Validate`), and if that Create succeeds the run
ends with state Ready and no error. -/
theorem c8_warm_path_runs_create_only (env : PrepEnv) (cfg : ManagerConfig)
    (st : MState) (r : SetupRequirements) (paths : AssetPaths)
    (hst : st = .new ∨ st = .stopped)
    (hr : env.setupReqs = some r)
    (hp : env.getAssetPaths = .ok paths)
    (ha : assetsExist env = true)
    (hdisk : (r.needsExtraction = false ∧ paths.rootfs ≠ "" ∧
                env.statOK paths.rootfs = true)
           ∨ (r.needsExtraction = true ∧ env.diskExists = true)) :
    ∃ c, (prepare env cfg st).2.2 = [Op.create c] ∧
      (env.createErr c = none →
        prepare env cfg st = (.ready, none, [Op.create c])) := by
  have hguard : ¬(st ≠ MState.new ∧ st ≠ MState.stopped) := by
    rcases hst with h | h <;> simp [h]
  have hwarm : isWarmPath env = true := by
    unfold isWarmPath
    rw [ha, hr]
    rcases hdisk with ⟨he, hrf, hstat⟩ | ⟨he, hd⟩
    · simp [he, hp, hrf, hstat]
    · simp [he, hd]
  have hpre : prepare env cfg st = warmPrepare env cfg := by
    unfold prepare
    rw [if_neg hguard, if_pos hwarm]
  rw [hpre]
  unfold warmPrepare
  rw [hp]
  rcases hdisk with ⟨he, hrf, -⟩ | ⟨he, -⟩
  · have hu : useRootfsDirect env paths = true := by
      simp [useRootfsDirect, hr, he, hrf]
    simp only [hu, if_true]
    refine ⟨buildVMConfig cfg paths env.bootCmdline paths.rootfs, ?_, ?_⟩
    · rcases hc : env.createErr
        (buildVMConfig cfg paths env.bootCmdline paths.rootfs) <;> simp [hc]
    · intro hc
      rw [hc]
  · have hu : useRootfsDirect env paths = false := by
      simp [useRootfsDirect, hr, he]
    simp only [hu, Bool.false_eq_true, if_false]
    refine ⟨buildVMConfig cfg paths env.bootCmdline env.imagesDiskPath, ?_, ?_⟩
    · rcases hc : env.createErr
        (buildVMConfig cfg paths env.bootCmdline env.imagesDiskPath) <;> simp [hc]
    · intro hc
      rw [hc]

/-- C8 witness: a concrete warm run (extraction-based distro, disk
present) whose trace is exactly one Create, ending Ready. -/
theorem c8_warm_path_witness :
    ∃ c, (prepare c8Env c8Cfg .new).2.2 = [Op.create c] ∧
      (c8Env.createErr c = none →
        prepare c8Env c8Cfg .new = (.ready, none, [Op.create c])) :=
  c8_warm_path_runs_create_only c8Env c8Cfg .new
    { needsFormatting := true, fsType := "ext4", needsExtraction := true }
    c2Paths (Or.inl rfl) rfl rfl (by decide) (Or.inr ⟨rfl, rfl⟩)

end VM

namespace Snap

/-- Evaluating an update at the updated key. -/
theorem upd_same (f : String → Option (List Nat)) (k : String)
    (v : Option (List Nat)) : upd f k v k = v := by
  simp [upd]

/-- Evaluating an update at another key. -/
theorem upd_ne (f : String → Option (List Nat)) (k : String)
    (v : Option (List Nat)) (k' : String) (h : k' ≠ k) :
    upd f k v k' = f k' := by
  simp [upd, h]

/-- `find?` over a list with no match followed by a singleton. -/
theorem find_append_single {p : SnapshotEntry → Bool}
    {l : List SnapshotEntry} {e : SnapshotEntry} (h : l.any p = false) :
    (l ++ [e]).find? p = if p e then some e else none := by
  induction l with
  | nil => cases hp : p e <;> simp [List.find?, hp]
  | cons a t ih =>
    rw [List.any_cons, Bool.or_eq_false_iff] at h
    rw [List.cons_append, List.find?_cons_of_neg _ (by simp [h.1]), ih h.2]

/-- Shape of a fully successful `createSnapshot`: no error, the new entry
appended, the compressed artifact in place, the live disk untouched and
all temporaries gone. -/
theorem create_ok (env : SnapEnv) (now : Nat) (fs : SnapFS)
    (vm snap descr : String) (d : List Nat)
    (hd : fs.disk = some d)
    (hdup : fs.snapshots.any (fun s => s.name = snap) = false) :
    (createSnapshot env noFaults now fs vm snap descr).2 = none ∧
    (createSnapshot env noFaults now fs vm snap descr).1.snapshots =
      fs.snapshots ++
        [{ name := snap, vmName := vm, description := descr, createdAt := now
         , diskSize := d.length, checksum := env.hash (env.compress d) }] ∧
    (createSnapshot env noFaults now fs vm snap descr).1.artifacts snap =
      some (env.compress d) ∧
    (∀ n, n ≠ snap →
      (createSnapshot env noFaults now fs vm snap descr).1.artifacts n =
        fs.artifacts n) ∧
    (createSnapshot env noFaults now fs vm snap descr).1.disk = some d := by
  refine ⟨?_, ?_, ?_, ?_, ?_⟩ <;>
    simp [createSnapshot, cleanupPartial, noFaults, hd, hdup, upd]
  intro n h1 h2
  exact absurd h2 h1

end Snap

namespace Snap

/-- C4.  For any disk content `d`, a successful `CreateSnapshot` followed
— after the live disk has been replaced by arbitrary other content `z` —
by `RestoreSnapshot` of the same name succeeds and leaves the live disk
byte-identical to `d`.  The hypothesis `hrt` is the losslessness of the
gzip round-trip on this content. -/
theorem c4_create_then_restore_roundtrips (env : SnapEnv) (now : Nat)
    (fs : SnapFS) (vm snap descr : String) (d z : List Nat)
    (hrt : env.decompress (env.compress d) = d)
    (hd : fs.disk = some d)
    (hdup : fs.snapshots.any (fun s => s.name = snap) = false) :
    (createSnapshot env noFaults now fs vm snap descr).2 = none ∧
    (restoreSnapshot env
      { (createSnapshot env noFaults now fs vm snap descr).1 with
        disk := some z } snap).2 = none ∧
    (restoreSnapshot env
      { (createSnapshot env noFaults now fs vm snap descr).1 with
        disk := some z } snap).1.disk = some d := by
  obtain ⟨he, hsnaps, hart, -, -⟩ :=
    create_ok env now fs vm snap descr d hd hdup
  refine ⟨he, ?_, ?_⟩ <;>
  · set fs1 := (createSnapshot env noFaults now fs vm snap descr).1 with hfs1
    have hfind : ({ fs1 with disk := some z } : SnapFS).snapshots.find?
        (fun s => s.name = snap) =
        some { name := snap, vmName := vm, description := descr
             , createdAt := now, diskSize := d.length
             , checksum := env.hash (env.compress d) } := by
      show fs1.snapshots.find? (fun s => s.name = snap) = _
      rw [hsnaps, find_append_single hdup]
      simp
    have hart2 : ({ fs1 with disk := some z } : SnapFS).artifacts snap =
        some (env.compress d) := hart
    simp [restoreSnapshot, cleanupPartial, hfind, hart2, hrt]

/-- C4 witness: the round-trip on the concrete three-byte disk, with the
live disk zeroed in between. -/
theorem c4_roundtrip_witness :
    (createSnapshot c4Env noFaults 9 c4FS "vm1" "s1" "desc").2 = none ∧
    (restoreSnapshot c4Env
      { (createSnapshot c4Env noFaults 9 c4FS "vm1" "s1" "desc").1 with
        disk := some [0, 0, 0] } "s1").2 = none ∧
    (restoreSnapshot c4Env
      { (createSnapshot c4Env noFaults 9 c4FS "vm1" "s1" "desc").1 with
        disk := some [0, 0, 0] } "s1").1.disk = some [1, 2, 3] :=
  c4_create_then_restore_roundtrips c4Env 9 c4FS "vm1" "s1" "desc"
    [1, 2, 3] [0, 0, 0] rfl rfl rfl

/-- C5.  After a successful `CreateSnapshot`: while the stored artifact is
unchanged, `VerifySnapshot` succeeds; and if a single byte of the stored
artifact is flipped (position `i`, new value `b` differing from the old
byte), then — given that SHA-256 distinguishes the two artifacts (`hcoll`)
and that a SHA-256 hex digest is never empty (`hne`) — both
`VerifySnapshot` and `RestoreSnapshot` fail with the Corruption error,
and the refusing restore changes neither the live disk nor creates a
restore temporary. -/
theorem c5_flipped_byte_is_corruption (env : SnapEnv) (now : Nat)
    (fs : SnapFS) (vm snap descr : String) (d : List Nat) (i : Nat) (b : Nat)
    (hd : fs.disk = some d)
    (hdup : fs.snapshots.any (fun s => s.name = snap) = false)
    (hne : env.hash (env.compress d) ≠ "")
    (hi : i < (env.compress d).length)
    (hb : b ≠ (env.compress d).get ⟨i, hi⟩)
    (hcoll : env.hash ((env.compress d).set i b) ≠ env.hash (env.compress d)) :
    verifySnapshot env
      (createSnapshot env noFaults now fs vm snap descr).1 snap = none ∧
    verifySnapshot env
      { (createSnapshot env noFaults now fs vm snap descr).1 with
        artifacts :=
          upd (createSnapshot env noFaults now fs vm snap descr).1.artifacts
            snap (some ((env.compress d).set i b)) } snap = some .corruption ∧
    (restoreSnapshot env
      { (createSnapshot env noFaults now fs vm snap descr).1 with
        artifacts :=
          upd (createSnapshot env noFaults now fs vm snap descr).1.artifacts
            snap (some ((env.compress d).set i b)) } snap).2 =
      some .corruption ∧
    (restoreSnapshot env
      { (createSnapshot env noFaults now fs vm snap descr).1 with
        artifacts :=
          upd (createSnapshot env noFaults now fs vm snap descr).1.artifacts
            snap (some ((env.compress d).set i b)) } snap).1.disk = some d ∧
    (restoreSnapshot env
      { (createSnapshot env noFaults now fs vm snap descr).1 with
        artifacts :=
          upd (createSnapshot env noFaults now fs vm snap descr).1.artifacts
            snap (some ((env.compress d).set i b)) } snap).1.restoringTmp =
      none := by
  obtain ⟨-, hsnaps, hart, -, hdisk⟩ :=
    create_ok env now fs vm snap descr d hd hdup
  set fs1 := (createSnapshot env noFaults now fs vm snap descr).1 with hfs1
  have hfind : fs1.snapshots.find? (fun s => s.name = snap) =
      some { name := snap, vmName := vm, description := descr
           , createdAt := now, diskSize := d.length
           , checksum := env.hash (env.compress d) } := by
    rw [hsnaps, find_append_single hdup]
    simp
  have hart' :
      ({ fs1 with
          artifacts :=
            upd fs1.artifacts snap
              (some ((env.compress d).set i b)) } : SnapFS).artifacts snap =
        some ((env.compress d).set i b) := upd_same _ _ _
  refine ⟨?_, ?_, ?_, ?_, ?_⟩
  · simp [verifySnapshot, hfind, hart, hne]
  · simp [verifySnapshot, upd, hfind, hne, hcoll]
  · simp [restoreSnapshot, cleanupPartial, upd, hfind, hne, hcoll]
  · have : (restoreSnapshot env
        { fs1 with
          artifacts :=
            upd fs1.artifacts snap
              (some ((env.compress d).set i b)) } snap).1.disk = fs1.disk := by
      simp [restoreSnapshot, cleanupPartial, upd, hfind, hne, hcoll]
    rw [this, hdisk]
  · simp [restoreSnapshot, cleanupPartial, upd, hfind, hne, hcoll]

/-- C5 witness: create a snapshot of the two-byte disk, flip its first
byte from 0 to 1, and observe Verify succeed before and both Verify and
Restore report corruption after, with the disk untouched. -/
theorem c5_corruption_witness :
    verifySnapshot c5Env
      (createSnapshot c5Env noFaults 4 c5FS "vm1" "s1" "d").1 "s1" = none ∧
    verifySnapshot c5Env
      { (createSnapshot c5Env noFaults 4 c5FS "vm1" "s1" "d").1 with
        artifacts :=
          upd (createSnapshot c5Env noFaults 4 c5FS "vm1" "s1" "d").1.artifacts
            "s1" (some (([0, 1] : List Nat).set 0 1)) } "s1" =
      some .corruption ∧
    (restoreSnapshot c5Env
      { (createSnapshot c5Env noFaults 4 c5FS "vm1" "s1" "d").1 with
        artifacts :=
          upd (createSnapshot c5Env noFaults 4 c5FS "vm1" "s1" "d").1.artifacts
            "s1" (some (([0, 1] : List Nat).set 0 1)) } "s1").2 =
      some .corruption ∧
    (restoreSnapshot c5Env
      { (createSnapshot c5Env noFaults 4 c5FS "vm1" "s1" "d").1 with
        artifacts :=
          upd (createSnapshot c5Env noFaults 4 c5FS "vm1" "s1" "d").1.artifacts
            "s1" (some (([0, 1] : List Nat).set 0 1)) } "s1").1.disk =
      some [0, 1] ∧
    (restoreSnapshot c5Env
      { (createSnapshot c5Env noFaults 4 c5FS "vm1" "s1" "d").1 with
        artifacts :=
          upd (createSnapshot c5Env noFaults 4 c5FS "vm1" "s1" "d").1.artifacts
            "s1" (some (([0, 1] : List Nat).set 0 1)) } "s1").1.restoringTmp =
      none :=
  c5_flipped_byte_is_corruption c5Env 4 c5FS "vm1" "s1" "d" [0, 1] 0 1
    rfl rfl (by decide) (by decide) (by decide) (by decide)

/-- C6.  When an entry with the requested name already exists for the VM
(and the VM's disk file exists, so the earlier disk stat passes),
`CreateSnapshot` fails with the DuplicateName error before creating or
writing any file: the metadata list, every artifact (the existing one
included) and the live disk are exactly as before; no temporary is left. -/
theorem c6_duplicate_name_rejected_without_changes (env : SnapEnv)
    (flt : CreateFaults) (now : Nat) (fs : SnapFS)
    (vm snap descr : String) (d : List Nat)
    (hd : fs.disk = some d)
    (hdup : fs.snapshots.any (fun s => s.name = snap) = true) :
    (createSnapshot env flt now fs vm snap descr).2 = some .duplicateName ∧
    (createSnapshot env flt now fs vm snap descr).1.snapshots = fs.snapshots ∧
    (∀ n, (createSnapshot env flt now fs vm snap descr).1.artifacts n =
      fs.artifacts n) ∧
    (createSnapshot env flt now fs vm snap descr).1.disk = fs.disk ∧
    (∀ n, (createSnapshot env flt now fs vm snap descr).1.tmpArtifacts n =
      none) ∧
    (createSnapshot env flt now fs vm snap descr).1.metaTmp = false := by
  refine ⟨?_, ?_, ?_, ?_, ?_, ?_⟩ <;>
    simp [createSnapshot, cleanupPartial, hd, hdup]

/-- C6 witness: re-creating "s1" fails with DuplicateName and leaves the
store unchanged. -/
theorem c6_duplicate_witness :
    (createSnapshot c4Env noFaults 5 c6FS "vm1" "s1" "new").2 =
      some .duplicateName ∧
    (createSnapshot c4Env noFaults 5 c6FS "vm1" "s1" "new").1.snapshots =
      c6FS.snapshots ∧
    (∀ n, (createSnapshot c4Env noFaults 5 c6FS "vm1" "s1" "new").1.artifacts n =
      c6FS.artifacts n) ∧
    (createSnapshot c4Env noFaults 5 c6FS "vm1" "s1" "new").1.disk =
      c6FS.disk ∧
    (∀ n, (createSnapshot c4Env noFaults 5 c6FS "vm1" "s1" "new").1.tmpArtifacts
      n = none) ∧
    (createSnapshot c4Env noFaults 5 c6FS "vm1" "s1" "new").1.metaTmp = false :=
  c6_duplicate_name_rejected_without_changes c4Env noFaults 5 c6FS
    "vm1" "s1" "new" [7] rfl (by decide)

/-- C7.  If `CreateSnapshot` fails at any step — any prefix of the
injected fault assignments, a missing disk, or a duplicate name — then,
provided no orphaned artifact already sat at the final artifact path, the
observable snapshot store is exactly as before the call: the metadata
list is unchanged, every final artifact path holds what it held before
(in particular nothing is visible at the new snapshot's final path), no
temporary artifact remains, and no metadata temporary remains. -/
theorem c7_failed_create_leaves_store_unchanged (env : SnapEnv)
    (flt : CreateFaults) (now : Nat) (fs : SnapFS)
    (vm snap descr : String) (e : SnapErr)
    (horphan : fs.artifacts snap = none)
    (herr : (createSnapshot env flt now fs vm snap descr).2 = some e) :
    (createSnapshot env flt now fs vm snap descr).1.snapshots =
      fs.snapshots ∧
    (∀ n, (createSnapshot env flt now fs vm snap descr).1.artifacts n =
      fs.artifacts n) ∧
    (∀ n, (createSnapshot env flt now fs vm snap descr).1.tmpArtifacts n =
      none) ∧
    (createSnapshot env flt now fs vm snap descr).1.metaTmp = false := by
  rcases hdisk : fs.disk with _ | d
  · refine ⟨?_, ?_, ?_, ?_⟩ <;>
      simp [createSnapshot, cleanupPartial, hdisk]
  · by_cases hdup : fs.snapshots.any (fun s => s.name = snap) = true
    · refine ⟨?_, ?_, ?_, ?_⟩ <;>
        simp [createSnapshot, cleanupPartial, hdisk, hdup]
    · by_cases f1 : flt.failCreateTmp
      · refine ⟨?_, ?_, ?_, ?_⟩ <;>
          simp [createSnapshot, cleanupPartial, hdisk, hdup, f1]
      · by_cases f2 : flt.failCompressCopy ∨ flt.failGzClose
        · refine ⟨?_, ?_, ?_, ?_⟩ <;>
            simp [createSnapshot, cleanupPartial, hdisk, hdup, f1, f2, upd]
          all_goals
            intro n
            by_cases hn : n = snap <;> simp [hn, horphan]
        · by_cases f3 : flt.failFileClose ∨ flt.failRename
          · refine ⟨?_, ?_, ?_, ?_⟩ <;>
              simp [createSnapshot, cleanupPartial, hdisk, hdup, f1, f2, f3, upd]
            all_goals
              intro n
              by_cases hn : n = snap <;> simp [hn, horphan]
          · by_cases f4 : flt.failChecksum
            · refine ⟨?_, ?_, ?_, ?_⟩ <;>
                simp [createSnapshot, cleanupPartial, hdisk, hdup, f1, f2, f3,
                  f4, upd]
              all_goals
                intro n
                by_cases hn : n = snap <;> simp [hn, horphan]
            · by_cases f5 : flt.failMetaWrite
              · refine ⟨?_, ?_, ?_, ?_⟩ <;>
                  simp [createSnapshot, cleanupPartial, hdisk, hdup, f1, f2, f3,
                    f4, f5, upd]
                all_goals
                  intro n
                  by_cases hn : n = snap <;> simp [hn, horphan]
              · by_cases f6 : flt.failMetaRename
                · refine ⟨?_, ?_, ?_, ?_⟩ <;>
                    simp [createSnapshot, cleanupPartial, hdisk, hdup, f1, f2,
                      f3, f4, f5, f6, upd]
                  all_goals
                    intro n
                    by_cases hn : n = snap <;> simp [hn, horphan]
                · exfalso
                  simp [createSnapshot, cleanupPartial, hdisk, hdup, f1, f2, f3,
                    f4, f5, f6] at herr

/-- C7 witness: with the rename into place failing, the concrete create
run errors out and leaves the empty store empty, with no temporaries. -/
theorem c7_failed_create_witness :
    (createSnapshot c4Env c7Faults 3 c4FS "vm1" "s1" "d").1.snapshots =
      c4FS.snapshots ∧
    (∀ n, (createSnapshot c4Env c7Faults 3 c4FS "vm1" "s1" "d").1.artifacts n =
      c4FS.artifacts n) ∧
    (∀ n, (createSnapshot c4Env c7Faults 3 c4FS "vm1" "s1" "d").1.tmpArtifacts
      n = none) ∧
    (createSnapshot c4Env c7Faults 3 c4FS "vm1" "s1" "d").1.metaTmp = false :=
  c7_failed_create_leaves_store_unchanged c4Env c7Faults 3 c4FS
    "vm1" "s1" "d" .ioFailure rfl (by decide)

/-- C10.  If the entry found for the requested name records an empty
checksum (a pre-checksum-support snapshot), `RestoreSnapshot` performs no
integrity verification: for every digest function whatsoever it
proceeds, decompresses the stored artifact and overwrites the live disk
with the result, returning no error — the Corruption branch is reachable
only for entries with a non-empty recorded checksum. -/
theorem c10_empty_checksum_skips_verification (env : SnapEnv) (fs : SnapFS)
    (snap : String) (entry : SnapshotEntry) (art : List Nat)
    (hfind : fs.snapshots.find? (fun s => s.name = snap) = some entry)
    (hck : entry.checksum = "")
    (hart : fs.artifacts snap = some art) :
    (restoreSnapshot env fs snap).2 = none ∧
    (restoreSnapshot env fs snap).1.disk = some (env.decompress art) := by
  constructor <;> simp [restoreSnapshot, cleanupPartial, hfind, hart, hck]

/-- C10 witness: restoring the checksum-less snapshot succeeds and
overwrites the disk with the decompressed artifact although the digest
function matches nothing. -/
theorem c10_empty_checksum_witness :
    (restoreSnapshot c10Env c10FS "s1").2 = none ∧
    (restoreSnapshot c10Env c10FS "s1").1.disk = some [5] :=
  c10_empty_checksum_skips_verification c10Env c10FS "s1"
    { name := "s1", vmName := "vm1", description := ""
    , createdAt := 1, diskSize := 1, checksum := "" } [5]
    (by decide) rfl rfl

end Snap
